import Mathlib

/-!
# Verification of the parts-catalog schema and client bootstrap

Shallow embedding of the two source artifacts of the repository:

* `supabase/migrations/20251107154643_create_initial_schema.sql` — four
  tables (`catalog_users`, `catalog_parts`, `cart`, `verification_codes`),
  their column constraints (NOT NULL, defaults, CHECK, UNIQUE, foreign keys
  with ON DELETE CASCADE) and the row-level-security policies.
* `src/lib/supabase.ts` — the client bootstrap that resolves two
  configuration values (environment variable falling back to a hardcoded
  constant), logs a presence diagnostic and throws when either resolved
  value is falsy, and otherwise constructs the client handle with
  `autoRefreshToken`, `persistSession` and `detectSessionInUrl` disabled.

SQL `NULL`-able columns are modelled as `Option`; a CHECK constraint is
satisfied when its boolean expression is true or NULL (SQL three-valued
logic), and the composite UNIQUE constraint never treats a NULL component
as equal to anything (two rows conflict only when both compared columns
are non-NULL and equal), as in PostgreSQL.  Insert inputs use
`Option (Option α)` for a nullable column with a default: the outer `none`
means the column was omitted (the default applies), `some none` means an
explicit NULL was supplied.
-/

namespace CatalogSpec

/-! ## Row-level-security policy model

Mirrors the `ALTER TABLE ... ENABLE ROW LEVEL SECURITY` statements and the
eleven `CREATE POLICY` statements of the migration.  Every `USING` and
`WITH CHECK` expression in the migration is literally `true`, recorded in
the `unconditional` field. -/

inductive Tbl
  | catalog_users
  | catalog_parts
  | cart
  | verification_codes
deriving DecidableEq, Fintype, Repr

inductive Op
  | select
  | insert
  | update
  | delete
deriving DecidableEq, Fintype, Repr

/-- The roles named by the `TO` clauses of the policies. -/
inductive Role
  | anon
  | authenticated
deriving DecidableEq, Fintype, Repr

structure Policy where
  pname : String
  table : Tbl
  cmds : List Op
  roles : List Role
  unconditional : Bool
deriving DecidableEq, Repr

/-- The eleven policies of the migration, in source order.
`FOR ALL` is recorded as the list of all four commands. -/
def policies : List Policy :=
  [ { pname := "Allow anonymous registration", table := .catalog_users,
      cmds := [.insert], roles := [.anon, .authenticated], unconditional := true },
    { pname := "Users can read own data", table := .catalog_users,
      cmds := [.select], roles := [.anon, .authenticated], unconditional := true },
    { pname := "Users can update own data", table := .catalog_users,
      cmds := [.update], roles := [.anon, .authenticated], unconditional := true },
    { pname := "Anyone can read parts", table := .catalog_parts,
      cmds := [.select], roles := [.anon, .authenticated], unconditional := true },
    { pname := "Anyone can insert parts", table := .catalog_parts,
      cmds := [.insert], roles := [.anon, .authenticated], unconditional := true },
    { pname := "Anyone can update parts", table := .catalog_parts,
      cmds := [.update], roles := [.anon, .authenticated], unconditional := true },
    { pname := "Anyone can delete parts", table := .catalog_parts,
      cmds := [.delete], roles := [.anon, .authenticated], unconditional := true },
    { pname := "Users can manage own cart", table := .cart,
      cmds := [.select, .insert, .update, .delete],
      roles := [.anon, .authenticated], unconditional := true },
    { pname := "Anyone can create codes", table := .verification_codes,
      cmds := [.insert], roles := [.anon, .authenticated], unconditional := true },
    { pname := "Anyone can read codes", table := .verification_codes,
      cmds := [.select], roles := [.anon, .authenticated], unconditional := true },
    { pname := "Anyone can update codes", table := .verification_codes,
      cmds := [.update], roles := [.anon, .authenticated], unconditional := true } ]

/-- RLS is enabled on all four tables. -/
def rlsEnabled : Tbl → Bool := fun _ => true

/-- PostgreSQL permits an operation for a role on an RLS-enabled table iff
some (permissive) policy for that table covers the command, lists the role,
and its row predicate admits the row — here every predicate is `true`. -/
def permits (t : Tbl) (o : Op) (r : Role) : Bool :=
  !(rlsEnabled t) ||
    policies.any (fun p =>
      decide (p.table = t) && decide (o ∈ p.cmds) && decide (r ∈ p.roles) &&
        p.unconditional)

/-! ## Schema model: rows -/

/-- A row of `catalog_users`.  `email`, `password_hash`, `name`,
`company_name`, `address`, `phone_number`, `status` are NOT NULL;
`is_admin`, `created_at`, `updated_at` are nullable. -/
structure UserRow where
  id : Nat
  email : String
  password_hash : String
  name : String
  company_name : String
  address : String
  phone_number : String
  status : String
  is_admin : Option Bool
  created_at : Option Nat
  updated_at : Option Nat
deriving DecidableEq, Repr

/-- A row of `catalog_parts`.  `qty INTEGER DEFAULT 0` carries no CHECK
constraint and is nullable; `image_url` is nullable with no default. -/
structure PartRow where
  id : Nat
  part_number : String
  name_en : String
  name_ru : String
  category : String
  price : Rat
  qty : Option Int
  image_url : Option String
  created_at : Option Nat
  updated_at : Option Nat
deriving DecidableEq, Repr

/-- A row of `cart`.  `user_id` and `part_id` are nullable foreign keys;
`quantity INTEGER DEFAULT 1 CHECK (quantity > 0)` is nullable. -/
structure CartRow where
  id : Nat
  user_id : Option Nat
  part_id : Option Nat
  quantity : Option Int
  created_at : Option Nat
deriving DecidableEq, Repr

/-- A row of `verification_codes`. -/
structure CodeRow where
  id : Nat
  email : String
  code : String
  expires_at : Nat
  used : Option Bool
  created_at : Option Nat
deriving DecidableEq, Repr

/-- The database state: the four tables of the migration. -/
structure DB where
  catalog_users : List UserRow
  catalog_parts : List PartRow
  cart : List CartRow
  verification_codes : List CodeRow
deriving DecidableEq, Repr

/-- The state right after the migration runs: four empty tables. -/
def emptyDB : DB := ⟨[], [], [], []⟩

/-! ## Constraint checks -/

/-- The value list of `CHECK (status IN ('pending', 'approved', 'rejected'))`. -/
def statusEnum : List String := ["pending", "approved", "rejected"]

/-- The `status` CHECK constraint; a NULL value satisfies a CHECK. -/
def statusCheck : Option String → Bool
  | none => true
  | some s => decide (s ∈ statusEnum)

/-- The `CHECK (quantity > 0)` constraint of `cart`; NULL satisfies it. -/
def qtyCheck : Option Int → Bool
  | none => true
  | some q => decide (0 < q)

/-- Whether two cart rows collide on `UNIQUE(user_id, part_id)`.
A NULL in either column of `a` means no conflict (SQL UNIQUE treats NULL
as distinct from everything, including another NULL). -/
def pairConflict (a b : CartRow) : Bool :=
  decide (a.user_id ≠ none ∧ a.part_id ≠ none ∧
    a.user_id = b.user_id ∧ a.part_id = b.part_id)

/-- The `cart.user_id REFERENCES catalog_users(id)` foreign key: a NULL
reference is always acceptable. -/
def fkUser (db : DB) : Option Nat → Bool
  | none => true
  | some u => db.catalog_users.any (fun r => decide (r.id = u))

/-- The `cart.part_id REFERENCES catalog_parts(id)` foreign key. -/
def fkPart (db : DB) : Option Nat → Bool
  | none => true
  | some p => db.catalog_parts.any (fun r => decide (r.id = p))

/-! ## Inserts

Each insert input supplies the columns an `INSERT` statement may set; the
generated `id` and the `now()` timestamps are passed in explicitly.
The insert function applies column defaults, checks the table's
constraints, and either prepends the new row or rejects (returns `none`),
leaving the state unchanged. -/

structure UserInsert where
  id : Nat
  email : String
  password_hash : String
  name : String
  company_name : Option String
  address : Option String
  phone_number : Option String
  status : Option (Option String)
  is_admin : Option (Option Bool)
deriving DecidableEq, Repr

def insertUser (now : Nat) (db : DB) (i : UserInsert) : Option DB :=
  match i.status.getD (some "pending") with
  | none => none
  | some sv =>
    if !(db.catalog_users.any (fun r => decide (r.id = i.id)))
        && !(db.catalog_users.any (fun r => decide (r.email = i.email)))
        && statusCheck (some sv) then
      some { db with catalog_users :=
        { id := i.id, email := i.email, password_hash := i.password_hash,
          name := i.name, company_name := i.company_name.getD "",
          address := i.address.getD "",
          phone_number := i.phone_number.getD "", status := sv,
          is_admin := i.is_admin.getD (some false),
          created_at := some now, updated_at := some now } ::
            db.catalog_users }
    else none

structure PartInsert where
  id : Nat
  part_number : String
  name_en : String
  name_ru : String
  category : String
  price : Rat
  qty : Option (Option Int)
  image_url : Option String
deriving DecidableEq, Repr

def mkPartRow (now : Nat) (i : PartInsert) : PartRow :=
  { id := i.id, part_number := i.part_number, name_en := i.name_en,
    name_ru := i.name_ru, category := i.category, price := i.price,
    qty := i.qty.getD (some 0), image_url := i.image_url,
    created_at := some now, updated_at := some now }

/-- Insert into `catalog_parts`: besides the primary key the migration
places no constraint on the supplied values — in particular none on `qty`. -/
def insertPart (now : Nat) (db : DB) (i : PartInsert) : Option DB :=
  if !(db.catalog_parts.any (fun r => decide (r.id = i.id))) then
    some { db with catalog_parts := mkPartRow now i :: db.catalog_parts }
  else none

structure CartInsert where
  id : Nat
  user_id : Option Nat
  part_id : Option Nat
  quantity : Option (Option Int)
deriving DecidableEq, Repr

def mkCartRow (now : Nat) (i : CartInsert) : CartRow :=
  { id := i.id, user_id := i.user_id, part_id := i.part_id,
    quantity := i.quantity.getD (some 1), created_at := some now }

def insertCart (now : Nat) (db : DB) (i : CartInsert) : Option DB :=
  if !(db.cart.any (fun r => decide (r.id = i.id)))
      && fkUser db i.user_id && fkPart db i.part_id
      && qtyCheck (mkCartRow now i).quantity
      && !(db.cart.any (fun r => pairConflict (mkCartRow now i) r)) then
    some { db with cart := mkCartRow now i :: db.cart }
  else none

structure CodeInsert where
  id : Nat
  email : String
  code : String
  expires_at : Nat
  used : Option (Option Bool)
deriving DecidableEq, Repr

def insertCode (now : Nat) (db : DB) (i : CodeInsert) : Option DB :=
  if !(db.verification_codes.any (fun r => decide (r.id = i.id))) then
    some { db with verification_codes :=
      { id := i.id, email := i.email, code := i.code,
        expires_at := i.expires_at, used := i.used.getD (some false),
        created_at := some now } :: db.verification_codes }
  else none

/-! ## Deletes

`DELETE FROM catalog_users` / `catalog_parts` cascades into `cart` through
the two `ON DELETE CASCADE` foreign keys; no other table references them. -/

def deleteUser (db : DB) (u : Nat) : DB :=
  { db with
    catalog_users := db.catalog_users.filter (fun r => decide (r.id ≠ u)),
    cart := db.cart.filter (fun c => decide (c.user_id ≠ some u)) }

def deletePart (db : DB) (p : Nat) : DB :=
  { db with
    catalog_parts := db.catalog_parts.filter (fun r => decide (r.id ≠ p)),
    cart := db.cart.filter (fun c => decide (c.part_id ≠ some p)) }

def deleteCart (db : DB) (c : Nat) : DB :=
  { db with cart := db.cart.filter (fun r => decide (r.id ≠ c)) }

/-! ## Transition system

A step is any single row operation the schema admits: an insert (checked by
the insert functions above), a delete (with cascade), or an update of one
row in place.  An update keeps the primary key, and PostgreSQL re-checks
the updated row against the table's CHECK, UNIQUE and foreign-key
constraints, which the update constructors' hypotheses record. -/

inductive Step : DB → DB → Prop
  | insUser : ∀ (db : DB) (now : Nat) (i : UserInsert) (db' : DB),
      insertUser now db i = some db' → Step db db'
  | insPart : ∀ (db : DB) (now : Nat) (i : PartInsert) (db' : DB),
      insertPart now db i = some db' → Step db db'
  | insCart : ∀ (db : DB) (now : Nat) (i : CartInsert) (db' : DB),
      insertCart now db i = some db' → Step db db'
  | insCode : ∀ (db : DB) (now : Nat) (i : CodeInsert) (db' : DB),
      insertCode now db i = some db' → Step db db'
  | delUser : ∀ (db : DB) (u : Nat), Step db (deleteUser db u)
  | delPart : ∀ (db : DB) (p : Nat), Step db (deletePart db p)
  | delCart : ∀ (db : DB) (c : Nat), Step db (deleteCart db c)
  | updUser : ∀ (db : DB) (pre post : List UserRow) (c r : UserRow),
      db.catalog_users = pre ++ c :: post →
      r.id = c.id →
      statusCheck (some r.status) = true →
      (pre ++ post).all (fun x => decide (x.email ≠ r.email)) = true →
      Step db { db with catalog_users := pre ++ r :: post }
  | updPart : ∀ (db : DB) (pre post : List PartRow) (c r : PartRow),
      db.catalog_parts = pre ++ c :: post →
      r.id = c.id →
      Step db { db with catalog_parts := pre ++ r :: post }
  | updCart : ∀ (db : DB) (pre post : List CartRow) (c r : CartRow),
      db.cart = pre ++ c :: post →
      r.id = c.id →
      qtyCheck r.quantity = true →
      fkUser db r.user_id = true →
      fkPart db r.part_id = true →
      (pre ++ post).all (fun x => !(pairConflict r x)) = true →
      Step db { db with cart := pre ++ r :: post }
  | updCode : ∀ (db : DB) (pre post : List CodeRow) (c r : CodeRow),
      db.verification_codes = pre ++ c :: post →
      r.id = c.id →
      Step db { db with verification_codes := pre ++ r :: post }

/-- The states reachable from the freshly migrated (empty) database. -/
inductive Reach : DB → Prop
  | init : Reach emptyDB
  | step : ∀ (db db' : DB), Reach db → Step db db' → Reach db'

/-! ## Client bootstrap model (`src/lib/supabase.ts`) -/

/-- Modelled from the spec: the module `./supabase-config` imported by
`src/lib/supabase.ts` is not among the given sources; per the spec it
provides a hardcoded fallback constant pair (endpoint URL, anonymous API
key).  Their concrete values are irrelevant here, so the model carries
them as parameters. -/
structure FallbackConfig where
  SUPABASE_URL : String
  SUPABASE_ANON_KEY : String
deriving DecidableEq, Repr

/-- The two environment values `import.meta.env.VITE_SUPABASE_URL` and
`import.meta.env.VITE_SUPABASE_ANON_KEY`; `none` models `undefined`. -/
structure Env where
  VITE_SUPABASE_URL : Option String
  VITE_SUPABASE_ANON_KEY : Option String
deriving DecidableEq, Repr

/-- JavaScript `a || b` on an environment string: `undefined` and the
empty string are falsy. -/
def jsOr (a : Option String) (b : String) : String :=
  match a with
  | none => b
  | some s => if s = "" then b else s

/-- JavaScript truthiness of a string. -/
def strTruthy (s : String) : Bool := decide (s ≠ "")

/-- The handle produced by `createClient` with its auth options. -/
structure SupabaseClient where
  url : String
  key : String
  autoRefreshToken : Bool
  persistSession : Bool
  detectSessionInUrl : Bool
deriving DecidableEq, Repr

def createClient (u k : String) (autoRefreshToken persistSession
    detectSessionInUrl : Bool) : SupabaseClient :=
  ⟨u, k, autoRefreshToken, persistSession, detectSessionInUrl⟩

/-- The object passed to `console.error`: the resolved URL value itself,
and for the key only the string literal `'exists'` or `'missing'`. -/
structure EnvLog where
  url_field : String
  key_field : String
deriving DecidableEq, Repr

def envLog (url key : String) : EnvLog :=
  ⟨url, if strTruthy key then "exists" else "missing"⟩

def missingEnvMessage : String :=
  "Missing Supabase environment variables. Please restart the dev server."

/-- The module body of `src/lib/supabase.ts`: resolve the two values with
their fallbacks; if either is falsy, log the presence diagnostic and throw
the fixed error; otherwise construct the client with `autoRefreshToken`,
`persistSession` and `detectSessionInUrl` all `false`.  The first component
is the emitted log (if any), the second the thrown error or the handle. -/
def initSupabase (cfg : FallbackConfig) (env : Env) :
    Option EnvLog × Except String SupabaseClient :=
  let supabaseUrl := jsOr env.VITE_SUPABASE_URL cfg.SUPABASE_URL
  let supabaseAnonKey := jsOr env.VITE_SUPABASE_ANON_KEY cfg.SUPABASE_ANON_KEY
  if !(strTruthy supabaseUrl) || !(strTruthy supabaseAnonKey) then
    (some (envLog supabaseUrl supabaseAnonKey), Except.error missingEnvMessage)
  else
    (none, Except.ok (createClient supabaseUrl supabaseAnonKey false false false))

/-! ## Helper lemmas -/

lemma insertUser_some {now : Nat} {db : DB} {i : UserInsert} {db' : DB}
    (h : insertUser now db i = some db') :
    ∃ row : UserRow, row.status ∈ statusEnum ∧
      db' = { db with catalog_users := row :: db.catalog_users } := by
  unfold insertUser at h
  split at h
  · exact absurd h (by simp)
  · split at h
    · rename_i sv heq hcond
      simp only [Bool.and_eq_true] at hcond
      refine ⟨_, ?_, (Option.some.inj h).symm⟩
      simpa [statusCheck] using hcond.2
    · exact absurd h (by simp)

lemma insertPart_some {now : Nat} {db : DB} {i : PartInsert} {db' : DB}
    (h : insertPart now db i = some db') :
    db' = { db with catalog_parts := mkPartRow now i :: db.catalog_parts } := by
  unfold insertPart at h
  split at h
  · exact (Option.some.inj h).symm
  · exact absurd h (by simp)

lemma insertCart_some {now : Nat} {db : DB} {i : CartInsert} {db' : DB}
    (h : insertCart now db i = some db') :
    qtyCheck (mkCartRow now i).quantity = true ∧
      (∀ x ∈ db.cart, pairConflict (mkCartRow now i) x = false) ∧
      db' = { db with cart := mkCartRow now i :: db.cart } := by
  unfold insertCart at h
  split at h
  · rename_i hcond
    simp only [Bool.and_eq_true, Bool.not_eq_true'] at hcond
    refine ⟨hcond.1.2, ?_, (Option.some.inj h).symm⟩
    intro x hx
    by_contra hconf
    rw [Bool.not_eq_false] at hconf
    have : db.cart.any (fun r => pairConflict (mkCartRow now i) r) = true :=
      List.any_eq_true.mpr ⟨x, hx, hconf⟩
    rw [hcond.2] at this
    exact Bool.noConfusion this
  · exact absurd h (by simp)

lemma insertCode_some {now : Nat} {db : DB} {i : CodeInsert} {db' : DB}
    (h : insertCode now db i = some db') :
    db' = { db with verification_codes :=
      { id := i.id, email := i.email, code := i.code,
        expires_at := i.expires_at, used := i.used.getD (some false),
        created_at := some now } :: db.verification_codes } := by
  unfold insertCode at h
  split at h
  · exact (Option.some.inj h).symm
  · exact absurd h (by simp)

lemma pairConflict_eq_true {a b : CartRow} :
    pairConflict a b = true ↔
      a.user_id ≠ none ∧ a.part_id ≠ none ∧
        a.user_id = b.user_id ∧ a.part_id = b.part_id := by
  simp [pairConflict]

lemma pairConflict_false_symm {a b : CartRow}
    (h : pairConflict a b = false) : pairConflict b a = false := by
  cases hba : pairConflict b a with
  | false => rfl
  | true =>
    rw [pairConflict_eq_true] at hba
    obtain ⟨h1, h2, h3, h4⟩ := hba
    have : pairConflict a b = true :=
      pairConflict_eq_true.mpr ⟨h3 ▸ h1, h4 ▸ h2, h3.symm, h4.symm⟩
    simp [this] at h

/-! ## Reachability invariants -/

/-- Every cart row satisfies the `quantity` CHECK constraint. -/
def QtyInv (db : DB) : Prop := ∀ c ∈ db.cart, qtyCheck c.quantity = true

/-- Every user row's status lies in the CHECK enum. -/
def StatusInv (db : DB) : Prop := ∀ r ∈ db.catalog_users, r.status ∈ statusEnum

/-- No two distinct cart rows collide on `UNIQUE(user_id, part_id)`. -/
def UniqInv (db : DB) : Prop :=
  db.cart.Pairwise (fun a b => pairConflict a b = false)

def Invariant (db : DB) : Prop := QtyInv db ∧ StatusInv db ∧ UniqInv db

lemma step_invariant {db db' : DB} (hs : Step db db') (h : Invariant db) :
    Invariant db' := by
  obtain ⟨hq, hst, hu⟩ := h
  cases hs with
  | insUser now i db' hins =>
    obtain ⟨row, hrow, rfl⟩ := insertUser_some hins
    refine ⟨hq, ?_, hu⟩
    intro r hr
    rcases List.mem_cons.mp hr with rfl | hr
    · exact hrow
    · exact hst r hr
  | insPart now i db' hins =>
    obtain rfl := insertPart_some hins
    exact ⟨hq, hst, hu⟩
  | insCart now i db' hins =>
    obtain ⟨hqty, hconf, rfl⟩ := insertCart_some hins
    refine ⟨?_, hst, ?_⟩
    · intro c hc
      rcases List.mem_cons.mp hc with rfl | hc
      · exact hqty
      · exact hq c hc
    · exact List.pairwise_cons.mpr ⟨hconf, hu⟩
  | insCode now i db' hins =>
    obtain rfl := insertCode_some hins
    exact ⟨hq, hst, hu⟩
  | delUser u =>
    refine ⟨?_, ?_, ?_⟩
    · intro c hc; exact hq c (List.mem_of_mem_filter hc)
    · intro r hr; exact hst r (List.mem_of_mem_filter hr)
    · exact List.Pairwise.sublist (List.filter_sublist _) hu
  | delPart p =>
    refine ⟨?_, hst, ?_⟩
    · intro c hc; exact hq c (List.mem_of_mem_filter hc)
    · exact List.Pairwise.sublist (List.filter_sublist _) hu
  | delCart c =>
    refine ⟨?_, hst, ?_⟩
    · intro x hx; exact hq x (List.mem_of_mem_filter hx)
    · exact List.Pairwise.sublist (List.filter_sublist _) hu
  | updUser pre post c r hsplit hid hstat hemail =>
    have hst2 : ∀ x ∈ pre ++ c :: post, x.status ∈ statusEnum := by
      rw [← hsplit]; exact hst
    refine ⟨hq, ?_, hu⟩
    intro x hx
    rcases List.mem_append.mp hx with hx | hx
    · exact hst2 x (List.mem_append_left _ hx)
    · rcases List.mem_cons.mp hx with rfl | hx
      · simpa [statusCheck] using hstat
      · exact hst2 x (List.mem_append_right _ (List.mem_cons_of_mem _ hx))
  | updPart pre post c r hsplit hid =>
    exact ⟨hq, hst, hu⟩
  | updCart pre post c r hsplit hid hqty hfk1 hfk2 hconf =>
    have hq2 : ∀ x ∈ pre ++ c :: post, qtyCheck x.quantity = true := by
      rw [← hsplit]; exact hq
    have hu2 : (pre ++ c :: post).Pairwise
        (fun a b => pairConflict a b = false) := by
      rw [← hsplit]; exact hu
    have hconf2 : ∀ x ∈ pre ++ post, pairConflict r x = false := by
      intro x hx
      have := List.all_eq_true.mp hconf x hx
      simpa using this
    rw [List.pairwise_append] at hu2
    obtain ⟨hpre, hcpost, hrel⟩ := hu2
    rw [List.pairwise_cons] at hcpost
    obtain ⟨hcrel, hpost⟩ := hcpost
    refine ⟨?_, hst, ?_⟩
    · intro x hx
      rcases List.mem_append.mp hx with hx | hx
      · exact hq2 x (List.mem_append_left _ hx)
      · rcases List.mem_cons.mp hx with rfl | hx
        · exact hqty
        · exact hq2 x (List.mem_append_right _ (List.mem_cons_of_mem _ hx))
    · show (pre ++ r :: post).Pairwise (fun a b => pairConflict a b = false)
      rw [List.pairwise_append]
      refine ⟨hpre, ?_, ?_⟩
      · rw [List.pairwise_cons]
        refine ⟨?_, hpost⟩
        intro b hb
        exact hconf2 b (List.mem_append_right _ hb)
      · intro a ha b hb
        rcases List.mem_cons.mp hb with rfl | hb
        · exact pairConflict_false_symm (hconf2 a (List.mem_append_left _ ha))
        · exact hrel a ha b (List.mem_cons_of_mem _ hb)
  | updCode pre post c r hsplit hid =>
    exact ⟨hq, hst, hu⟩

lemma reach_invariant {db : DB} (h : Reach db) : Invariant db := by
  induction h with
  | init =>
    exact ⟨fun c hc => absurd hc (List.not_mem_nil c),
      fun r hr => absurd hr (List.not_mem_nil r), List.Pairwise.nil⟩
  | step db db' hr hs ih => exact step_invariant hs ih

lemma pairwise_filter_len {l : List CartRow}
    (hpw : l.Pairwise (fun a b => pairConflict a b = false)) (u p : Nat) :
    (l.filter (fun c =>
      decide (c.user_id = some u ∧ c.part_id = some p))).length ≤ 1 := by
  cases hf : l.filter (fun c =>
      decide (c.user_id = some u ∧ c.part_id = some p)) with
  | nil => simp [hf]
  | cons a t =>
    cases t with
    | nil => simp
    | cons b t2 =>
      exfalso
      have hsub := List.Pairwise.sublist
        (@List.filter_sublist CartRow
          (fun c => decide (c.user_id = some u ∧ c.part_id = some p)) l) hpw
      rw [hf] at hsub
      have hab := (List.pairwise_cons.mp hsub).1 b (List.mem_cons_self b t2)
      have ha : a ∈ l.filter (fun c =>
          decide (c.user_id = some u ∧ c.part_id = some p)) := by
        rw [hf]; exact List.mem_cons_self a _
      have hb : b ∈ l.filter (fun c =>
          decide (c.user_id = some u ∧ c.part_id = some p)) := by
        rw [hf]; exact List.mem_cons_of_mem a (List.mem_cons_self b t2)
      have ha2 := (List.mem_filter.mp ha).2
      have hb2 := (List.mem_filter.mp hb).2
      rw [decide_eq_true_eq] at ha2 hb2
      have hconf : pairConflict a b = true :=
        pairConflict_eq_true.mpr ⟨by simp [ha2.1], by simp [ha2.2],
          ha2.1.trans hb2.1.symm, ha2.2.trans hb2.2.symm⟩
      rw [hconf] at hab
      exact Bool.noConfusion hab

/-! ## Claims -/

/-- C1 counterexample: the claim asserts that delete is permitted on
`catalog_users`, but the migration creates no delete policy for that table,
and with RLS enabled PostgreSQL denies any operation no policy covers:
`permits` is `false` for delete on `catalog_users` for both roles. -/
theorem c1_counterexample :
    permits Tbl.catalog_users Op.delete Role.anon = false ∧
      permits Tbl.catalog_users Op.delete Role.authenticated = false := by
  decide

/-- C1 (amended): for both the anonymous and authenticated roles, every
operation on every table is permitted by the policy set, with exactly two
exceptions — delete on `verification_codes` and delete on `catalog_users`
(in particular delete is permitted on `catalog_parts` and `cart`). -/
theorem c1_policy_coverage :
    ∀ (t : Tbl) (o : Op) (r : Role),
      permits t o r =
        !(decide ((t = Tbl.verification_codes ∨ t = Tbl.catalog_users) ∧
          o = Op.delete)) := by
  decide

/-- C1 witness: the coverage equation instantiated at delete on `cart` for
the anonymous role (where it evaluates to permitted). -/
theorem c1_witness :
    permits Tbl.cart Op.delete Role.anon =
      !(decide ((Tbl.cart = Tbl.verification_codes ∨
        Tbl.cart = Tbl.catalog_users) ∧ Op.delete = Op.delete)) :=
  c1_policy_coverage Tbl.cart Op.delete Role.anon

/-- C2: if either resolved configuration value (endpoint URL, anonymous
API key) is falsy, client construction throws the fixed message
`Missing Supabase environment variables. Please restart the dev server.`
and yields no client handle; moreover every error the construction can
throw carries exactly that message. -/
theorem c2_missing_env_fault :
    ∀ (cfg : FallbackConfig) (env : Env),
      ((strTruthy (jsOr env.VITE_SUPABASE_URL cfg.SUPABASE_URL) = false ∨
        strTruthy (jsOr env.VITE_SUPABASE_ANON_KEY cfg.SUPABASE_ANON_KEY)
          = false) →
        (initSupabase cfg env).2 = Except.error missingEnvMessage ∧
        ∀ c : SupabaseClient, (initSupabase cfg env).2 ≠ Except.ok c) ∧
      (∀ e : String, (initSupabase cfg env).2 = Except.error e →
        e = missingEnvMessage) := by
  intro cfg env
  cases hcond : (!(strTruthy (jsOr env.VITE_SUPABASE_URL cfg.SUPABASE_URL))
      || !(strTruthy (jsOr env.VITE_SUPABASE_ANON_KEY
        cfg.SUPABASE_ANON_KEY))) with
  | true =>
    refine ⟨fun h => ⟨by simp [initSupabase, hcond], fun c => by
      simp [initSupabase, hcond]⟩, fun e he => ?_⟩
    simp [initSupabase, hcond] at he
    exact he.symm
  | false =>
    constructor
    · rintro (h | h) <;> simp [h] at hcond
    · intro e he
      simp [initSupabase, hcond] at he

/-- C2 witness: with both environment values undefined and empty fallback
constants, construction fails with the fixed message. -/
theorem c2_witness :
    (initSupabase ⟨"", ""⟩ ⟨none, none⟩).2 =
      Except.error missingEnvMessage :=
  ((c2_missing_env_fault ⟨"", ""⟩ ⟨none, none⟩).1 (Or.inl (by decide))).1

/-- C3: deleting a `catalog_users` row removes exactly the cart rows that
reference that user and exactly that user's rows, leaving `catalog_parts`
and `verification_codes` untouched; deleting a `catalog_parts` row likewise
cascades only into `cart`. -/
theorem c3_cascade_semantics :
    ∀ (db : DB) (u p : Nat),
      (deleteUser db u).catalog_parts = db.catalog_parts ∧
      (deleteUser db u).verification_codes = db.verification_codes ∧
      (∀ r : UserRow, r ∈ (deleteUser db u).catalog_users ↔
        r ∈ db.catalog_users ∧ r.id ≠ u) ∧
      (∀ c : CartRow, c ∈ (deleteUser db u).cart ↔
        c ∈ db.cart ∧ c.user_id ≠ some u) ∧
      (deletePart db p).catalog_users = db.catalog_users ∧
      (deletePart db p).verification_codes = db.verification_codes ∧
      (∀ r : PartRow, r ∈ (deletePart db p).catalog_parts ↔
        r ∈ db.catalog_parts ∧ r.id ≠ p) ∧
      (∀ c : CartRow, c ∈ (deletePart db p).cart ↔
        c ∈ db.cart ∧ c.part_id ≠ some p) := by
  intro db u p
  refine ⟨rfl, rfl, ?_, ?_, rfl, rfl, ?_, ?_⟩ <;>
    intro x <;> simp [deleteUser, deletePart, List.mem_filter]

/-- C3 witness: the cascade frame instantiated at a concrete state. -/
theorem c3_witness :
    (deleteUser
      { catalog_users := [{ id := 1, email := "a@b.c", password_hash := "h",
                            name := "n", company_name := "", address := "",
                            phone_number := "", status := "pending",
                            is_admin := some false, created_at := some 0,
                            updated_at := some 0 }],
        catalog_parts := [],
        cart := [{ id := 5, user_id := some 1, part_id := none,
                   quantity := some 1, created_at := some 0 }],
        verification_codes := [] } 1).catalog_parts =
      ({ catalog_users := [{ id := 1, email := "a@b.c",
                             password_hash := "h", name := "n",
                             company_name := "", address := "",
                             phone_number := "", status := "pending",
                             is_admin := some false, created_at := some 0,
                             updated_at := some 0 }],
         catalog_parts := [],
         cart := [{ id := 5, user_id := some 1, part_id := none,
                    quantity := some 1, created_at := some 0 }],
         verification_codes := [] } : DB).catalog_parts :=
  (c3_cascade_semantics _ 1 2).1

/-- C4: inserting a cart row whose non-NULL `(user_id, part_id)` pair
already occurs in the table is rejected by `UNIQUE(user_id, part_id)`, and
consequently in every reachable state no two cart rows collide on the
constraint and at most one cart row carries any given non-NULL pair. -/
theorem c4_cart_pair_unique :
    (∀ (now : Nat) (db : DB) (i : CartInsert) (u p : Nat),
      (∃ c ∈ db.cart, c.user_id = some u ∧ c.part_id = some p) →
      i.user_id = some u → i.part_id = some p →
      insertCart now db i = none) ∧
    (∀ db : DB, Reach db →
      db.cart.Pairwise (fun a b => pairConflict a b = false)) ∧
    (∀ db : DB, Reach db → ∀ u p : Nat,
      (db.cart.filter (fun c =>
        decide (c.user_id = some u ∧ c.part_id = some p))).length ≤ 1) := by
  refine ⟨?_, fun db h => (reach_invariant h).2.2,
    fun db h u p => pairwise_filter_len (reach_invariant h).2.2 u p⟩
  rintro now db i u p ⟨c, hc, hcu, hcp⟩ hiu hip
  cases h : insertCart now db i with
  | none => rfl
  | some db' =>
    exfalso
    obtain ⟨-, hconf, -⟩ := insertCart_some h
    have hfalse := hconf c hc
    have htrue : pairConflict (mkCartRow now i) c = true :=
      pairConflict_eq_true.mpr ⟨by simp [mkCartRow, hiu],
        by simp [mkCartRow, hip], by simp [mkCartRow, hiu, hcu],
        by simp [mkCartRow, hip, hcp]⟩
    rw [htrue] at hfalse
    exact Bool.noConfusion hfalse

/-- C4 witness: a duplicate `(user 10, part 20)` cart insert is rejected. -/
theorem c4_witness :
    insertCart 0
      { catalog_users := [], catalog_parts := [],
        cart := [{ id := 1, user_id := some 10, part_id := some 20,
                   quantity := some 1, created_at := some 0 }],
        verification_codes := [] }
      { id := 2, user_id := some 10, part_id := some 20,
        quantity := some (some 1) } = none :=
  c4_cart_pair_unique.1 0 _ _ 10 20
    ⟨_, List.mem_cons_self _ _, rfl, rfl⟩ rfl rfl

/-- C5 counterexample: `quantity` is nullable and a NULL satisfies
`CHECK (quantity > 0)`, so a reachable state contains a cart row whose
quantity is NULL — not greater than 0 as the claim asserts for every row. -/
theorem c5_counterexample :
    ∃ db : DB, Reach db ∧ ∃ c : CartRow, c ∈ db.cart ∧ c.quantity = none ∧
      ∀ q : Int, ¬(c.quantity = some q ∧ 0 < q) :=
  ⟨{ catalog_users := [], catalog_parts := [],
     cart := [{ id := 1, user_id := none, part_id := none,
                quantity := none, created_at := some 0 }],
     verification_codes := [] },
   Reach.step _ _ Reach.init (Step.insCart emptyDB 0
     { id := 1, user_id := none, part_id := none, quantity := some none } _
     (by decide)),
   ⟨_, List.mem_cons_self _ _, rfl, fun q hq => Option.noConfusion hq.1⟩⟩

/-- C5 (amended): an insert supplying a non-NULL quantity ≤ 0 is rejected
by the check constraint (the state is unchanged since the insert yields
nothing), and in every reachable state every cart row's quantity is either
NULL or greater than 0. -/
theorem c5_quantity_check :
    (∀ (now : Nat) (db : DB) (i : CartInsert) (q : Int),
      i.quantity = some (some q) → q ≤ 0 → insertCart now db i = none) ∧
    (∀ db : DB, Reach db → ∀ c ∈ db.cart,
      c.quantity = none ∨ ∃ q : Int, c.quantity = some q ∧ 0 < q) := by
  constructor
  · intro now db i q hq hle
    have h1 : (mkCartRow now i).quantity = some q := by simp [mkCartRow, hq]
    have h2 : qtyCheck (mkCartRow now i).quantity = false := by
      rw [h1]
      simp [qtyCheck]
      omega
    simp [insertCart, h2]
  · intro db h c hc
    have hck := (reach_invariant h).1 c hc
    cases hcq : c.quantity with
    | none => exact Or.inl rfl
    | some q =>
      refine Or.inr ⟨q, rfl, ?_⟩
      rw [hcq] at hck
      simpa [qtyCheck] using hck

/-- C5 witness: inserting a cart row with quantity 0 is rejected. -/
theorem c5_witness :
    insertCart 0 emptyDB
      { id := 1, user_id := none, part_id := none,
        quantity := some (some 0) } = none :=
  c5_quantity_check.1 0 emptyDB _ 0 rfl (by omega)

/-- C6: an insert of a `catalog_users` row whose status value is outside
`{pending, approved, rejected}` (including an explicit NULL, which NOT NULL
rejects) fails; an insert omitting status gets the default `pending`; and
in every reachable state every user row's status lies in the enum. -/
theorem c6_status_enum :
    (∀ (now : Nat) (db : DB) (i : UserInsert) (s : String),
      i.status = some (some s) → s ∉ statusEnum →
      insertUser now db i = none) ∧
    (∀ (now : Nat) (db : DB) (i : UserInsert), i.status = some none →
      insertUser now db i = none) ∧
    (∀ (now : Nat) (db : DB) (i : UserInsert) (db' : DB), i.status = none →
      insertUser now db i = some db' →
      ∃ row : UserRow, db'.catalog_users = row :: db.catalog_users ∧
        row.status = "pending") ∧
    (∀ db : DB, Reach db → ∀ r ∈ db.catalog_users,
      r.status ∈ statusEnum) := by
  refine ⟨?_, ?_, ?_, fun db h => (reach_invariant h).2.1⟩
  · intro now db i s hs hnot
    simp [insertUser, hs, statusCheck, hnot]
  · intro now db i hs
    simp [insertUser, hs]
  · intro now db i db' hnone hins
    unfold insertUser at hins
    rw [hnone, Option.getD_none] at hins
    split at hins
    · exact absurd hins (by simp)
    · rename_i sv heq
      obtain rfl := Option.some.inj heq
      split at hins
      · obtain rfl := (Option.some.inj hins).symm
        exact ⟨_, rfl, rfl⟩
      · exact absurd hins (by simp)

/-- C6 witness: an out-of-enum status insert is rejected. -/
theorem c6_witness :
    insertUser 0 emptyDB
      { id := 1, email := "a@b.c", password_hash := "h", name := "n",
        company_name := none, address := none, phone_number := none,
        status := some (some "blocked"), is_admin := none } = none :=
  c6_status_enum.1 0 emptyDB _ "blocked" rfl (by decide)

/-- C7 counterexample: `catalog_parts.qty` carries no check constraint, so
inserting a part with qty -5 succeeds and the stored row has qty -5,
contradicting the claim that a negative qty is rejected. -/
theorem c7_counterexample :
    insertPart 0 emptyDB
      { id := 1, part_number := "p", name_en := "e", name_ru := "r",
        category := "c", price := 1, qty := some (some (-5)),
        image_url := none } =
      some
        { catalog_users := [],
          catalog_parts := [{ id := 1, part_number := "p", name_en := "e",
                              name_ru := "r", category := "c", price := 1,
                              qty := some (-5), image_url := none,
                              created_at := some 0, updated_at := some 0 }],
          cart := [], verification_codes := [] } ∧
      (-5 : Int) < 0 := by
  constructor
  · rfl
  · decide

/-- C7 (amended): `qty` defaults to 0 when the insert omits it, but the
schema places no lower-bound check on it — whether a part insert is
accepted is independent of the supplied qty value, so negative (and NULL)
qty values are stored as given. -/
theorem c7_qty_default_unchecked :
    (∀ (now : Nat) (db : DB) (i : PartInsert) (db' : DB), i.qty = none →
      insertPart now db i = some db' →
      ∃ row : PartRow, db'.catalog_parts = row :: db.catalog_parts ∧
        row.qty = some 0) ∧
    (∀ (now : Nat) (db : DB) (i : PartInsert) (q : Option Int),
      insertPart now db { i with qty := some q } = none ↔
        insertPart now db i = none) := by
  constructor
  · intro now db i db' hq hins
    obtain rfl := (insertPart_some hins).symm
    exact ⟨_, rfl, by simp [mkPartRow, hq]⟩
  · intro now db i q
    cases h : db.catalog_parts.any (fun r => decide (r.id = i.id)) with
    | true => simp [insertPart, h]
    | false => simp [insertPart, h]

/-- C7 witness: an insert omitting qty stores the default 0. -/
theorem c7_witness :
    ∃ row : PartRow,
      ({ catalog_users := [],
         catalog_parts := [{ id := 2, part_number := "p", name_en := "e",
                             name_ru := "r", category := "c", price := 1,
                             qty := some 0, image_url := none,
                             created_at := some 0, updated_at := some 0 }],
         cart := [], verification_codes := [] } : DB).catalog_parts =
        row :: emptyDB.catalog_parts ∧ row.qty = some 0 :=
  c7_qty_default_unchecked.1 0 emptyDB
    { id := 2, part_number := "p", name_en := "e", name_ru := "r",
      category := "c", price := 1, qty := none, image_url := none } _
    rfl rfl

/-- C8: when both resolved configuration values are truthy, construction
returns a client handle (no throw) whose automatic token refresh, session
persistence and URL session detection are all disabled. -/
theorem c8_valid_config_client :
    ∀ (cfg : FallbackConfig) (env : Env),
      strTruthy (jsOr env.VITE_SUPABASE_URL cfg.SUPABASE_URL) = true →
      strTruthy (jsOr env.VITE_SUPABASE_ANON_KEY cfg.SUPABASE_ANON_KEY)
        = true →
      ∃ c : SupabaseClient, (initSupabase cfg env).2 = Except.ok c ∧
        c.autoRefreshToken = false ∧ c.persistSession = false ∧
        c.detectSessionInUrl = false := by
  intro cfg env h1 h2
  have hres : (initSupabase cfg env).2 = Except.ok
      (createClient (jsOr env.VITE_SUPABASE_URL cfg.SUPABASE_URL)
        (jsOr env.VITE_SUPABASE_ANON_KEY cfg.SUPABASE_ANON_KEY)
        false false false) := by
    simp [initSupabase, h1, h2]
  exact ⟨_, hres, rfl, rfl, rfl⟩

/-- C8 witness: with both environment values set, the handle exists with
the three auth options disabled. -/
theorem c8_witness :
    ∃ c : SupabaseClient,
      (initSupabase ⟨"", ""⟩ ⟨some "https://x.co", some "anonkey"⟩).2 =
        Except.ok c ∧ c.autoRefreshToken = false ∧
        c.persistSession = false ∧ c.detectSessionInUrl = false :=
  c8_valid_config_client ⟨"", ""⟩ ⟨some "https://x.co", some "anonkey"⟩
    (by decide) (by decide)

/-- C9 counterexample: the claim says the failure log reports only the
presence or absence of each configuration value, but the code logs the
resolved URL value itself: two URL values with the same presence status
(both present, key absent in both runs) produce different logs, and the
emitted log literally contains the URL string. -/
theorem c9_counterexample :
    (initSupabase ⟨"", ""⟩ ⟨some "https://a.co", none⟩).1 ≠
      (initSupabase ⟨"", ""⟩ ⟨some "https://b.co", none⟩).1 ∧
    (initSupabase ⟨"", ""⟩ ⟨some "https://a.co", none⟩).1 =
      some ⟨"https://a.co", "missing"⟩ := by
  constructor
  · decide
  · rfl

/-- C9 (amended): the failure log never contains the anonymous API key's
actual value — it depends on the key configuration only through the
resolved value's truthiness, so any two key configurations with the same
presence status give identical logs — but on every failing construction
the log is exactly the resolved URL's actual value paired with the key's
presence string (`exists` or `missing`). -/
theorem c9_log_reveals_url_not_key :
    (∀ (cfgU : String) (url k1 k2 : Option String) (c1 c2 : String),
      strTruthy (jsOr k1 c1) = strTruthy (jsOr k2 c2) →
      (initSupabase ⟨cfgU, c1⟩ ⟨url, k1⟩).1 =
        (initSupabase ⟨cfgU, c2⟩ ⟨url, k2⟩).1) ∧
    (∀ (cfg : FallbackConfig) (env : Env),
      (initSupabase cfg env).2 = Except.error missingEnvMessage →
      (initSupabase cfg env).1 =
        some ⟨jsOr env.VITE_SUPABASE_URL cfg.SUPABASE_URL,
          if strTruthy (jsOr env.VITE_SUPABASE_ANON_KEY
              cfg.SUPABASE_ANON_KEY) = true then "exists"
            else "missing"⟩) := by
  constructor
  · intro cfgU url k1 k2 c1 c2 h
    cases hc : (!(strTruthy (jsOr url cfgU)) || !(strTruthy (jsOr k2 c2)))
        with
    | true => simp [initSupabase, envLog, h, hc]
    | false => simp [initSupabase, envLog, h, hc]
  · intro cfg env herr
    cases hc : (!(strTruthy (jsOr env.VITE_SUPABASE_URL cfg.SUPABASE_URL))
        || !(strTruthy (jsOr env.VITE_SUPABASE_ANON_KEY
          cfg.SUPABASE_ANON_KEY))) with
    | true => simp [initSupabase, envLog, hc]
    | false => simp [initSupabase, hc] at herr

/-- C9 witness: two different present key values produce the same log, and
a concrete failing construction logs the URL value with the key mapped to
`missing`. -/
theorem c9_witness :
    ((initSupabase ⟨"u", "x"⟩ ⟨some "https://h.io", some "secretA"⟩).1 =
      (initSupabase ⟨"u", "y"⟩ ⟨some "https://h.io", some "secretB"⟩).1) ∧
    (initSupabase ⟨"", ""⟩ ⟨some "https://a.co", none⟩).1 =
      some ⟨"https://a.co", "missing"⟩ :=
  ⟨c9_log_reveals_url_not_key.1 "u" (some "https://h.io")
      (some "secretA") (some "secretB") "x" "y" (by decide),
    (c9_log_reveals_url_not_key.2 ⟨"", ""⟩ ⟨some "https://a.co", none⟩
      rfl).trans (by decide)⟩

/-- C10: the cart's `user_id` and `part_id` are nullable; a row with a
NULL component never collides on `UNIQUE(user_id, part_id)` (a conflict
requires both columns non-NULL and equal), and a reachable state holds two
distinct cart rows whose reference pairs contain NULL and coincide. -/
theorem c10_nullable_cart_refs :
    (∀ a b : CartRow, a.user_id = none ∨ a.part_id = none →
      pairConflict a b = false) ∧
    (∀ a b : CartRow, pairConflict a b = true ↔
      (∃ u : Nat, a.user_id = some u ∧ b.user_id = some u) ∧
      (∃ p : Nat, a.part_id = some p ∧ b.part_id = some p)) ∧
    (∃ db : DB, Reach db ∧ ∃ c1 c2 : CartRow, c1 ∈ db.cart ∧
      c2 ∈ db.cart ∧ c1.id ≠ c2.id ∧ c1.user_id = none ∧
      c2.user_id = none ∧ c1.part_id = c2.part_id) := by
  refine ⟨?_, ?_, ?_⟩
  · intro a b h
    cases hc : pairConflict a b with
    | false => rfl
    | true =>
      exfalso
      rw [pairConflict_eq_true] at hc
      rcases h with h | h
      · exact hc.1 h
      · exact hc.2.1 h
  · intro a b
    constructor
    · intro hc
      rw [pairConflict_eq_true] at hc
      obtain ⟨h1, h2, h3, h4⟩ := hc
      obtain ⟨u, hu⟩ := Option.ne_none_iff_exists'.mp h1
      obtain ⟨p, hp⟩ := Option.ne_none_iff_exists'.mp h2
      exact ⟨⟨u, hu, h3 ▸ hu⟩, ⟨p, hp, h4 ▸ hp⟩⟩
    · rintro ⟨⟨u, hau, hbu⟩, ⟨p, hap, hbp⟩⟩
      rw [pairConflict_eq_true]
      exact ⟨by simp [hau], by simp [hap], hau.trans hbu.symm,
        hap.trans hbp.symm⟩
  · refine
      ⟨{ catalog_users := [], catalog_parts := [],
         cart := [{ id := 2, user_id := none, part_id := none,
                    quantity := some 1, created_at := some 0 },
                  { id := 1, user_id := none, part_id := none,
                    quantity := some 1, created_at := some 0 }],
         verification_codes := [] },
       Reach.step _ _
         (Reach.step _ _ Reach.init
           (Step.insCart emptyDB 0
             { id := 1, user_id := none, part_id := none, quantity := none }
             { catalog_users := [], catalog_parts := [],
               cart := [{ id := 1, user_id := none, part_id := none,
                          quantity := some 1, created_at := some 0 }],
               verification_codes := [] }
             (by decide)))
         (Step.insCart _ 0
           { id := 2, user_id := none, part_id := none, quantity := none }
           _ (by decide)),
       _, _, List.mem_cons_self _ _,
       List.mem_cons_of_mem _ (List.mem_cons_self _ _),
       by decide, rfl, rfl, rfl⟩

/-- C10 witness: two rows sharing a NULL `user_id` and the same `part_id`
do not collide on the uniqueness constraint. -/
theorem c10_witness :
    pairConflict
      { id := 1, user_id := none, part_id := some 3, quantity := some 1,
        created_at := none }
      { id := 2, user_id := none, part_id := some 3, quantity := some 1,
        created_at := none } = false :=
  c10_nullable_cart_refs.1 _ _ (Or.inl rfl)

end CatalogSpec
